import Mathlib

/-!
Verification development for the browser-automation agent
(`src/agent/browser_agent.py`).  The Python code is shallowly embedded:
pure logic becomes Lean functions, the browser capability and the
language-model collaborator become explicit oracles, Python exceptions
become `Except String` values (the message is `str(e)`), and Python
floats are modelled as exact rationals.  Leading underscores of Python
method names are dropped (`_execute_action` ↦ `execute_action`, etc.).
-/

namespace Agent

/-! ## Python string primitives used by the agent -/

/-- Characters Python treats as whitespace for `str.split()` / `str.strip()`
(ASCII subset; the agent only handles ASCII task text). -/
def pyIsSpace (c : Char) : Bool :=
  c = ' ' || c = '\t' || c = '\n' || c = '\r' || c = '\x0b' || c = '\x0c'

/-- Python `str.lower()` (ASCII case mapping, per-character). -/
def pyLower (s : String) : String :=
  String.mk (s.toList.map Char.toLower)

/-- Bool infix scan underlying Python's `in`: the pattern is a prefix of
some suffix of the haystack. -/
def charsContain (pat : List Char) : List Char → Bool
  | [] => pat.isEmpty
  | c :: cs => List.isPrefixOf pat (c :: cs) || charsContain pat cs

/-- Python `pat in s` substring test. -/
def strContains (s pat : String) : Bool :=
  charsContain pat.toList s.toList

/-- Auxiliary splitter: accumulates the current word (reversed). -/
def pySplitAux : List Char → List Char → List String
  | [], acc => if acc.isEmpty then [] else [String.mk acc.reverse]
  | c :: cs, acc =>
    if pyIsSpace c then
      if acc.isEmpty then pySplitAux cs []
      else String.mk acc.reverse :: pySplitAux cs []
    else pySplitAux cs (c :: acc)

/-- Python `str.split()` (no argument): split on whitespace runs, no empty
pieces. -/
def pySplit (s : String) : List String :=
  pySplitAux s.toList []

/-- Python `str.strip()`: drop leading and trailing whitespace. -/
def pyStrip (s : String) : String :=
  String.mk (((s.toList.dropWhile pyIsSpace).reverse.dropWhile pyIsSpace).reverse)

/-- Python `f"{x}"` applied to an `Optional[str]`: `None` prints as `"None"`. -/
def pyStr : Option String → String
  | none => "None"
  | some s => s

/-! ## Data model (`ActionType`, `BrowserAction`, `ActionResult`) -/

/-- The nine action kinds of the `ActionType` enum.  The extra constructor
`other` stands for a value outside the enum reaching the executor's
defensive `else` branch ("Unknown action type"). -/
inductive ActionType where
  | navigate
  | click
  | type
  | scroll
  | wait
  | screenshot
  | get_text
  | get_attribute
  | execute_script
  | other (s : String)
  deriving DecidableEq

/-- The parameter dictionary of a `BrowserAction`, restricted to the keys the
executor reads via `parameters.get(...)`; a `none` field models an absent
key.  `byKey` is the `"by"` key (a Lean keyword).  Numeric parameters are
modelled as integers. -/
structure Params where
  url : Option String := none
  selector : Option String := none
  text : Option String := none
  byKey : Option String := none
  filename : Option String := none
  attr : Option String := none  -- the "attribute" key ("attribute" is a Lean keyword)
  script : Option String := none
  seconds : Option Int := none
  direction : Option String := none
  amount : Option Int := none
  deriving DecidableEq

/-- `BrowserAction` (pydantic model): kind, parameters, description. -/
structure BrowserAction where
  action : ActionType
  parameters : Params
  description : String
  deriving DecidableEq

/-- The kind-specific `data` payloads produced by the executor, plus the two
payloads produced by the complex-task controller (`"User skipped step"` and
`{"completed_steps": n}`). -/
inductive ActionData where
  | navData (url : Option String)
  | clickData (selector : Option String)
  | typeData (typed : Option String) (into : Option String)
  | scrollData (direction : String) (amount : Int)
  | waitData (seconds : Int)
  | screenshotData (filename : String)
  | textData (text : String)
  | attrData (attr : Option String) (value : String)
  | scriptData (result : String)
  | stringData (s : String)
  | completedSteps (n : Nat)
  deriving DecidableEq

/-- `ActionResult` (pydantic model). -/
structure ActionResult where
  success : Bool
  data : Option ActionData := none
  error : Option String := none
  screenshot_path : Option String := none
  deriving DecidableEq

/-! ## The browser capability oracle and the action executor -/

/-- The browser capability interface consumed by `_execute_action`, as an
oracle: each operation either returns a value or raises an exception
carrying the message `str(e)`.  Operations receive exactly the values the
source passes them (`parameters.get` results, hence `Option`s where no
default is supplied).  Script results are abstracted as strings. -/
structure Browser where
  navigate_to : Option String → Except String Unit
  click_element : String → Option String → Except String Unit
  send_keys : String → Option String → Option String → Except String Unit
  take_screenshot : String → Except String Bool
  get_text : String → Option String → Except String String
  get_attribute : String → Option String → Option String → Except String String
  execute_script : Option String → Except String String

/-- `_get_by_method`: Playwright takes string selectors, so this is just
`by_method.lower()`. -/
def get_by_method (by_method : String) : String :=
  pyLower by_method

/-- `time.sleep`: raises `ValueError` on a negative duration, otherwise
succeeds. -/
def pySleep (seconds : Int) : Except String Unit :=
  if seconds < 0 then Except.error "sleep length must be non-negative"
  else Except.ok ()

/-- The body of the `try` block of `_execute_action`: one branch per kind; an
uncaught exception propagates as `Except.error`. -/
def execute_action_body (B : Browser) (a : BrowserAction) : Except String ActionResult :=
  match a.action with
  | ActionType.navigate => do
    let url := a.parameters.url
    let _ ← B.navigate_to url
    pure { success := true, data := some (ActionData.navData url) }
  | ActionType.click => do
    let selector := a.parameters.selector
    let bym := get_by_method (a.parameters.byKey.getD "css")
    let _ ← B.click_element bym selector
    pure { success := true, data := some (ActionData.clickData selector) }
  | ActionType.type => do
    let selector := a.parameters.selector
    let text := a.parameters.text
    let bym := get_by_method (a.parameters.byKey.getD "css")
    let _ ← B.send_keys bym selector text
    pure { success := true, data := some (ActionData.typeData text selector) }
  | ActionType.screenshot => do
    let filename := a.parameters.filename.getD "screenshot.png"
    let ok ← B.take_screenshot filename
    pure { success := ok, data := some (ActionData.screenshotData filename),
           screenshot_path := if ok then some filename else none }
  | ActionType.get_text => do
    let selector := a.parameters.selector
    let bym := get_by_method (a.parameters.byKey.getD "css")
    let text ← B.get_text bym selector
    pure { success := true, data := some (ActionData.textData text) }
  | ActionType.get_attribute => do
    let selector := a.parameters.selector
    let attr := a.parameters.attr
    let bym := get_by_method (a.parameters.byKey.getD "css")
    let value ← B.get_attribute bym selector attr
    pure { success := true, data := some (ActionData.attrData attr value) }
  | ActionType.execute_script => do
    let script := a.parameters.script
    let result ← B.execute_script script
    pure { success := true, data := some (ActionData.scriptData result) }
  | ActionType.wait => do
    let seconds := a.parameters.seconds.getD 1
    let _ ← pySleep seconds
    pure { success := true, data := some (ActionData.waitData seconds) }
  | ActionType.scroll => do
    let direction := a.parameters.direction.getD "down"
    let amount := a.parameters.amount.getD 300
    let script := "window.scrollBy(0, " ++
      toString (if direction = "down" then amount else -amount) ++ ");"
    let _ ← B.execute_script (some script)
    pure { success := true, data := some (ActionData.scrollData direction amount) }
  | ActionType.other s => Except.error ("Unknown action type: " ++ s)

/-- `_execute_action`: the `try`/`except` wrapper converting any exception
into `ActionResult(success=False, error=str(e))`. -/
def execute_action (B : Browser) (a : BrowserAction) : ActionResult :=
  match execute_action_body B a with
  | Except.ok r => r
  | Except.error e => { success := false, error := some e }

/-- The kind-specific data shape of the §4.4 table. -/
def dataMatchesKind : ActionType → Option ActionData → Bool
  | ActionType.navigate, some (ActionData.navData _) => true
  | ActionType.click, some (ActionData.clickData _) => true
  | ActionType.type, some (ActionData.typeData _ _) => true
  | ActionType.scroll, some (ActionData.scrollData _ _) => true
  | ActionType.wait, some (ActionData.waitData _) => true
  | ActionType.screenshot, some (ActionData.screenshotData _) => true
  | ActionType.get_text, some (ActionData.textData _) => true
  | ActionType.get_attribute, some (ActionData.attrData _ _) => true
  | ActionType.execute_script, some (ActionData.scriptData _) => true
  | _, _ => false

/-! ## The task-complexity gate (`_is_complex_task`) -/

/-- The fixed keyword list `complex_indicators`. -/
def complex_indicators : List String :=
  ["and", "then", "after", "navigate to", "search for", "fill out",
   "login", "register", "purchase", "checkout", "multiple", "several"]

/-- `_is_complex_task`: any indicator occurs as a substring of the lowercased
task. -/
def is_complex_task (task : String) : Bool :=
  complex_indicators.any (fun indicator => strContains (pyLower task) indicator)

/-! ## The single-action planner fallback (`_generate_action_plan`) -/

/-- Leftmost match of the regex `https?://[^\s]+`: at each position try the
literal `https://` (the greedy `s?`) then `http://`; a match additionally
needs at least one following non-whitespace character, else the scan
advances one position. -/
def findUrlFrom : List Char → Option String
  | [] => none
  | c :: rest =>
    let cs := c :: rest
    let matched : Option Nat :=
      if List.isPrefixOf "https://".toList cs then some 8
      else if List.isPrefixOf "http://".toList cs then some 7
      else none
    match matched with
    | some n =>
      let body := (cs.drop n).takeWhile (fun ch => !pyIsSpace ch)
      if body.isEmpty then findUrlFrom rest
      else some (String.mk (cs.take n ++ body))
    | none => findUrlFrom rest

/-- The regex search for `https?://[^\s]+` (Python `re.search`) applied to
the raw, not lowercased, task text. -/
def extract_url (task : String) : Option String :=
  findUrlFrom task.toList

/-- The screenshot fallback action of `_generate_action_plan`. -/
def fallback_screenshot_action : BrowserAction :=
  { action := ActionType.screenshot,
    parameters := { filename := some "fallback_screenshot.png" },
    description := "Taking screenshot for debugging" }

/-- `_generate_action_plan`.  The model call, the JSON parse of its reply and
the `BrowserAction(**...)` construction (the whole `try` body) are one
oracle `modelResponse`; any exception from it reaches the `except` handler,
which builds the deterministic fallback. -/
def generate_action_plan (modelResponse : Except String BrowserAction)
    (task : String) : BrowserAction :=
  match modelResponse with
  | Except.ok a => a
  | Except.error _ =>
    let task_lower := pyLower task
    if strContains task_lower "navigate" || strContains task_lower "go to"
        || strContains task_lower "visit" then
      match extract_url task with
      | some url =>
        { action := ActionType.navigate, parameters := { url := some url },
          description := "Navigating to " ++ url }
      | none => fallback_screenshot_action
    else fallback_screenshot_action

/-! ## The action-history ring buffer (`_store_action_history`) -/

/-- One history entry; `timestamp` is `datetime.now().isoformat()`, supplied
by the caller's clock. -/
structure HistoryEntry where
  task : String
  action : BrowserAction
  result : ActionResult
  timestamp : String
  deriving DecidableEq

/-- `_store_action_history`: append the entry, then keep only the last 10
entries (`self.action_history[-10:]`). -/
def store_action_history (history : List HistoryEntry) (entry : HistoryEntry) :
    List HistoryEntry :=
  let h := history ++ [entry]
  if 10 < h.length then h.drop (h.length - 10) else h

/-- `N` successive `_store_action_history` calls starting from the initial
empty history, call `k` (1-based) recording the entry `f k`. -/
def recordHistory (f : Nat → HistoryEntry) : Nat → List HistoryEntry
  | 0 => []
  | n + 1 => store_action_history (recordHistory f n) (f (n + 1))

/-! ## Page context and the situation analyzers -/

/-- Element position from `getBoundingClientRect` (floats, as rationals). -/
structure ElemPosition where
  x : ℚ := 0
  y : ℚ := 0
  width : ℚ := 0
  height : ℚ := 0
  deriving DecidableEq

/-- An `ElementSummary` as produced by the context probe's element script;
the defaults mirror the script's `|| ''` fallbacks. -/
structure ElementSummary where
  tag : String := ""
  id : String := ""
  name : String := ""
  type : String := ""
  href : String := ""
  text : String := ""
  attributes : List (String × String) := []
  best_selector : String := ""
  is_visible : Bool := true
  position : ElemPosition := {}
  deriving DecidableEq

/-- The `page_info` sub-dictionary; defaults mirror both the probe's
fallback values and the analyzers' `page_info.get(...)` defaults. -/
structure PageInfo where
  forms : Nat := 0
  links : Nat := 0
  images : Nat := 0
  has_login : Bool := false
  has_search : Bool := false
  page_ready : Bool := true
  deriving DecidableEq

/-- Viewport info (probe fallback 1920×1080). -/
structure Viewport where
  width : Nat := 1920
  height : Nat := 1080
  deriving DecidableEq

/-- The page-context snapshot consumed by the analyzers.  The optional
plan-progress keys are omitted: no analyzer reads them. -/
structure PageContext where
  current_url : String := ""
  page_title : String := ""
  viewport_info : Viewport := {}
  interactive_elements : List ElementSummary := []
  page_info : PageInfo := {}
  deriving DecidableEq

/-- Python dict counting (`element_types[t] = element_types.get(t, 0) + 1`):
increment in place, insertion order preserved. -/
def bumpCount (acc : List (String × Nat)) (t : String) : List (String × Nat) :=
  if acc.any (fun p => p.1 = t) then
    acc.map (fun p => if p.1 = t then (p.1, p.2 + 1) else p)
  else acc ++ [(t, 1)]

/-- The `element_types` tally of `_analyze_page_state`. -/
def countElementTypes (elems : List ElementSummary) : List (String × Nat) :=
  elems.foldl (fun acc e => bumpCount acc e.tag) []

/-- The result of `_analyze_page_state`.  `url_domain` is omitted:
`_extract_domain` delegates to Python's `urlparse` (stdlib, outside the
embedding) and no claim reads it. -/
structure PageStateAnalysis where
  type : String
  state : String
  interactive_elements_count : Nat
  element_types : List (String × Nat)
  has_forms : Bool
  has_links : Bool
  has_images : Bool
  deriving DecidableEq

/-- `_analyze_page_state`. -/
def analyze_page_state (context : PageContext) : PageStateAnalysis :=
  let page_info := context.page_info
  let interactive_elements := context.interactive_elements
  let page_title := context.page_title
  let page_type :=
    if page_info.has_login then "login"
    else if page_info.has_search then "search"
    else if strContains (pyLower page_title) "form" || 0 < page_info.forms then "form"
    else if interactive_elements.any
        (fun elem => strContains (pyLower elem.text) "checkout") then "checkout"
    else if interactive_elements.any
        (fun elem => strContains (pyLower elem.text) "cart") then "shopping"
    else "general"
  let state :=
    if !page_info.page_ready then "loading"
    else if interactive_elements.length = 0 then "empty"
    else "ready"
  { type := page_type,
    state := state,
    interactive_elements_count := interactive_elements.length,
    element_types := countElementTypes interactive_elements,
    has_forms := 0 < page_info.forms,
    has_links := 0 < page_info.links,
    has_images := 0 < page_info.images }

/-- The per-element test in the loop of `_analyze_contextual_relevance`: the
element's lowercased, whitespace-split text shares at least one word with
the task's word set (`task_words & elem_words`). -/
def shares_word_with_task (task_words : List String) (elem : ElementSummary) : Bool :=
  (pySplit (pyLower elem.text)).any (fun w => task_words.contains w)

/-- The result of `_analyze_contextual_relevance`. -/
structure ContextualRelevance where
  relevance_score : ℚ
  relevant_elements_count : Nat
  relevant_elements : List ElementSummary
  page_title_relevance : Bool
  deriving DecidableEq

/-- `_analyze_contextual_relevance` (float arithmetic as exact rationals). -/
def analyze_contextual_relevance (task : String) (context : PageContext) :
    ContextualRelevance :=
  let task_lower := pyLower task
  let interactive_elements := context.interactive_elements
  let page_title := pyLower context.page_title
  let task_words := pySplit task_lower
  let relevant_elements := interactive_elements.filter (shares_word_with_task task_words)
  let relevance_score : ℚ :=
    min 1 ((relevant_elements.length : ℚ) /
      ((max 1 interactive_elements.length : Nat) : ℚ))
  { relevance_score := relevance_score,
    relevant_elements_count := relevant_elements.length,
    relevant_elements := relevant_elements.take 5,
    page_title_relevance := (pySplit task_lower).any
      (fun word => 3 < word.length && strContains page_title word) }

/-! ## Plan-status introspection (`get_current_plan_status`) -/

/-- The status dictionary; `none` fields model keys absent from the
`{"has_plan": False}` shape. -/
structure PlanStatus where
  has_plan : Bool
  total_steps : Option Nat := none
  current_step : Option Nat := none
  progress_percentage : Option ℚ := none
  current_step_description : Option String := none
  remaining_steps : Option Int := none
  deriving DecidableEq

/-- `get_current_plan_status`.  The outer `none` models an uncaught
exception, the only candidate being the `self.current_plan[self.plan_step]`
index access (guarded by `plan_step < len(plan)`).  Python's `round(x, 1)`
on the float percentage is abstracted to the exact rational value. -/
def get_current_plan_status (current_plan : Option (List BrowserAction))
    (plan_step : Nat) : Option PlanStatus :=
  match current_plan with
  | none => some { has_plan := false }
  | some plan =>
    -- Python: `if not self.current_plan` is also true for the empty list.
    if plan.isEmpty then some { has_plan := false }
    else
      let descr : Option String :=
        if plan_step < plan.length then
          (plan.get? plan_step).map (fun st => st.description)
        else some "Plan completed"
      descr.map (fun d =>
        { has_plan := true,
          total_steps := some plan.length,
          current_step := some (plan_step + 1),
          progress_percentage := some ((plan_step + 1 : ℚ) / (plan.length : ℚ) * 100),
          current_step_description := some d,
          remaining_steps := some ((plan.length : Int) - plan_step - 1) })

/-! ## The complex-plan execution loop (`_execute_complex_task`)

The loop is modelled over an environment of oracles threading an abstract
world state `σ`: `execStep` is `_execute_action` on a step's action (total,
by the executor's catch-all), `takeShot` is the screenshot taken inside
`_ask_user_for_help`, `readInput` is the console prompt (its `Except.error`
is an exception while prompting/reading, handled by that method's
`except`), and `runNewTask` is the recursive `self.execute_task` call on a
free-text reply (total: `execute_task` converts every exception into an
`ActionResult` via `_recover_from_error`).  The per-step context/situation
probes are exception-free and result-unused, and the history recording
(modelled separately as `store_action_history`) does not affect control
flow, so neither appears in the loop. -/

/-- Oracle environment for the plan-execution loop. -/
structure StepEnv (σ : Type) where
  execStep : σ → BrowserAction → ActionResult × σ
  takeShot : σ → String → Bool × σ
  readInput : σ → Except String String × σ
  runNewTask : σ → String → ActionResult × σ

/-- `_ask_user_for_help`: screenshot, prompt, then dispatch on the
stripped-and-lowercased reply; free text becomes a brand-new top-level
task (note the reply is passed on already lowercased). -/
def ask_user_for_help {σ : Type} (env : StepEnv σ) (s : σ)
    (failed_step : BrowserAction) : ActionResult × σ :=
  let (_shot, s1) := env.takeShot s "blocked_state.png"
  match env.readInput s1 with
  | (Except.error e, s2) =>
    ({ success := false, error := some ("User input failed: " ++ e) }, s2)
  | (Except.ok raw, s2) =>
    let user_input := pyLower (pyStrip raw)
    if user_input = "skip" then
      ({ success := true, data := some (ActionData.stringData "User skipped step") }, s2)
    else if user_input = "retry" then env.execStep s2 failed_step
    else if user_input = "abort" then
      ({ success := false, error := some "User aborted task" }, s2)
    else env.runNewTask s2 user_input

/-- `_recover_from_step_failure`: wait 1 s (cannot fail), then re-execute
the identical action exactly once. -/
def recover_from_step_failure {σ : Type} (env : StepEnv σ) (s : σ)
    (step : BrowserAction) : ActionResult × σ :=
  env.execStep s step

/-- The step loop of `_execute_complex_task`: on a step failure, one
automatic retry, then user escalation; an unrecovered failure aborts the
whole plan with an error naming the 1-based step index; completing all
steps yields `{"completed_steps": len(plan)}`. -/
def run_plan_steps {σ : Type} (env : StepEnv σ) (total : Nat) :
    List BrowserAction → Nat → σ → ActionResult × σ
  | [], _, s => ({ success := true, data := some (ActionData.completedSteps total) }, s)
  | step :: rest, step_idx, s =>
    let (result, s1) := env.execStep s step
    if result.success then run_plan_steps env total rest (step_idx + 1) s1
    else
      let (recovery_result, s2) := recover_from_step_failure env s1 step
      if recovery_result.success then run_plan_steps env total rest (step_idx + 1) s2
      else
        let (user_recovery, s3) := ask_user_for_help env s2 step
        if user_recovery.success then run_plan_steps env total rest (step_idx + 1) s3
        else
          ({ success := false,
             error := some ("Plan failed at step " ++ toString (step_idx + 1) ++ ": "
               ++ pyStr result.error) }, s3)

/-- The execution phase of `_execute_complex_task`, entered with the generated
plan and the plan cursor at 0. -/
def execute_complex_plan {σ : Type} (env : StepEnv σ) (plan : List BrowserAction)
    (s : σ) : ActionResult × σ :=
  run_plan_steps env plan.length plan 0 s

/-- A stateless environment: a fixed per-step outcome, a fixed console
reply, a fixed outcome for a free-text replacement task. -/
def constEnv (f : BrowserAction → ActionResult) (input : String)
    (newTask : String → ActionResult) : StepEnv Unit :=
  { execStep := fun _ step => (f step, ()),
    takeShot := fun _ _ => (true, ()),
    readInput := fun _ => (Except.ok input, ()),
    runNewTask := fun _ t => (newTask t, ()) }

/-- An instrumented environment counting `execStep` invocations. -/
def countEnv (f : BrowserAction → ActionResult) (input : String)
    (newTask : String → ActionResult) : StepEnv Nat :=
  { execStep := fun n step => (f step, n + 1),
    takeShot := fun n _ => (true, n),
    readInput := fun n => (Except.ok input, n),
    runNewTask := fun n t => (newTask t, n) }

/-- An instrumented environment recording the sequence of actions passed to
`execStep`. -/
def traceEnv (f : BrowserAction → ActionResult) (input : String)
    (newTask : String → ActionResult) : StepEnv (List BrowserAction) :=
  { execStep := fun tr step => (f step, tr ++ [step]),
    takeShot := fun tr _ => (true, tr),
    readInput := fun tr => (Except.ok input, tr),
    runNewTask := fun tr t => (newTask t, tr) }

/-! ## Simple-path error recovery (`_recover_from_error`) -/

/-- `_recover_from_error(task, error)` (`now` is `int(time.time())` for the
debug-screenshot filename).

The element-debugging branch (taken when the error text contains
`"Element not found"` or `"Timeout"`) calls `debug_element_selection`,
which always raises `NameError` — it evaluates `time.time()` but the
module never imports `time` at module level — so its own `except` handler
returns an error dict with no `available_elements` key, the
alternative-element loop iterates an empty list, and the branch never
returns early.  The generic recovery loop then runs: wait 2 s (which,
being `time.sleep(2)`, always succeeds) and, only if that failed, a forced
`location.reload()`; the loop `break`s at the first success but its result
is dropped — the method always returns a failed result whose error embeds
the original error text, with the screenshot path of the initial debug
screenshot.  (The `except` arm that embeds the recovery exception as well
is unreachable here: nothing in the recovery body can raise.) -/
def recover_from_error (B : Browser) (now : Nat) (task : String)
    (error : String) : ActionResult :=
  let screenshot_result := execute_action B
    { action := ActionType.screenshot,
      parameters := { filename := some ("error_recovery_" ++ toString now ++ ".png") },
      description := "Error recovery screenshot" }
  let _element_branch_taken :=
    strContains error "Element not found" || strContains error "Timeout"
  let wait_result := execute_action B
    { action := ActionType.wait, parameters := { seconds := some 2 },
      description := "Wait for page to stabilize" }
  let _reload_result :=
    if wait_result.success then wait_result
    else execute_action B
      { action := ActionType.execute_script,
        parameters := { script := some "location.reload();" },
        description := "Refresh page" }
  { success := false,
    error := some ("Original error: " ++ error ++ ". Recovery attempted."),
    screenshot_path :=
      if screenshot_result.success then screenshot_result.screenshot_path else none }

/-! ## Concrete fixtures for evaluating the definitions -/

/-- A browser on which every capability call succeeds. -/
def allOkBrowser : Browser :=
  { navigate_to := fun _ => Except.ok (),
    click_element := fun _ _ => Except.ok (),
    send_keys := fun _ _ _ => Except.ok (),
    take_screenshot := fun _ => Except.ok true,
    get_text := fun _ _ => Except.ok "heading",
    get_attribute := fun _ _ _ => Except.ok "value",
    execute_script := fun _ => Except.ok "null" }

/-- A browser whose `navigate` raises an exception with an empty message
(e.g. Python's bare `raise Exception()`). -/
def emptyMsgBrowser : Browser :=
  { navigate_to := fun _ => Except.error "",
    click_element := fun _ _ => Except.ok (),
    send_keys := fun _ _ _ => Except.ok (),
    take_screenshot := fun _ => Except.ok true,
    get_text := fun _ _ => Except.ok "",
    get_attribute := fun _ _ _ => Except.ok "",
    execute_script := fun _ => Except.ok "" }

/-- A concrete navigation action. -/
def navigateExampleAction : BrowserAction :=
  { action := ActionType.navigate,
    parameters := { url := some "https://example.com" },
    description := "Navigate to example.com" }

/-- An action whose kind is outside the nine known kinds. -/
def unknownKindAction : BrowserAction :=
  { action := ActionType.other "hover",
    parameters := {},
    description := "Unsupported hover action" }

/-- Concrete plan steps. -/
def stepA : BrowserAction :=
  { action := ActionType.click, parameters := { selector := some "button#a" },
    description := "Step A" }

/-- Second concrete plan step. -/
def stepB : BrowserAction :=
  { action := ActionType.click, parameters := { selector := some "button#b" },
    description := "Step B" }

/-- A per-step outcome on which `stepA` always fails and every other step
succeeds. -/
def failOnA (step : BrowserAction) : ActionResult :=
  if step = stepA then { success := false, error := some "Element not found" }
  else { success := true, data := some (ActionData.clickData step.parameters.selector) }

/-- A page context exposing both a password field and a search field. -/
def loginSearchContext : PageContext :=
  { current_url := "https://example.com/signin",
    page_title := "Sign in",
    page_info := { has_login := true, has_search := true } }

/-- A page context whose single element shares no word with the tasks used
against it. -/
def irrelevantContext : PageContext :=
  { current_url := "https://example.com",
    page_title := "Welcome",
    interactive_elements := [{ tag := "button", text := "hello world" }] }

/-- A concrete history-entry stream with distinct timestamps. -/
def histEntryAt (k : Nat) : HistoryEntry :=
  { task := "task", action := fallback_screenshot_action,
    result := { success := true }, timestamp := String.mk (List.replicate k 'a') }

/-! # Theorems -/

/-- `charsContain` decides `List.IsInfix`. -/
theorem charsContain_iff (pat l : List Char) :
    charsContain pat l = true ↔ pat <:+: l := by
  induction l with
  | nil => simp [charsContain, List.infix_nil, List.isEmpty_iff]
  | cons c cs ih =>
    simp [charsContain, List.isPrefixOf_iff_prefix, ih, List.infix_cons_iff]

/-- C6: the task-complexity gate classifies a task as complex iff the
lowercased task contains some member of the fixed keyword set
`complex_indicators` as a substring; in particular
`"navigate to x and click y"` is complex and `"click the button"` is
simple. -/
theorem complexity_gate_spec :
    (∀ task : String, is_complex_task task = true ↔
      ∃ k ∈ complex_indicators, k.toList <:+: (pyLower task).toList) ∧
    is_complex_task "navigate to x and click y" = true ∧
    is_complex_task "click the button" = false := by
  refine ⟨fun task => ?_, by decide, by decide⟩
  simp [is_complex_task, strContains, List.any_eq_true, charsContain_iff]

/-- C7: when the single-action planner's model call or response parse fails,
it returns the deterministic fallback: a Navigate action with the extracted
URL when the task has a navigation-intent keyword and an extractable URL
(in particular for `"navigate to https://example.com"`), and otherwise the
fallback Screenshot action; the failure never reaches the caller. -/
theorem planner_fallback_spec :
    ∀ (e task : String),
      (∀ url,
        (strContains (pyLower task) "navigate" || strContains (pyLower task) "go to"
          || strContains (pyLower task) "visit") = true →
        extract_url task = some url →
        generate_action_plan (Except.error e) task =
          { action := ActionType.navigate, parameters := { url := some url },
            description := "Navigating to " ++ url }) ∧
      ((strContains (pyLower task) "navigate" || strContains (pyLower task) "go to"
          || strContains (pyLower task) "visit") = false ∨ extract_url task = none →
        generate_action_plan (Except.error e) task = fallback_screenshot_action) ∧
      generate_action_plan (Except.error e) "navigate to https://example.com" =
        { action := ActionType.navigate,
          parameters := { url := some "https://example.com" },
          description := "Navigating to https://example.com" } := by
  intro e task
  refine ⟨fun url hnav hurl => ?_, fun h => ?_, ?_⟩
  · simp [generate_action_plan, hnav, hurl]
  · rcases h with h | h
    · simp [generate_action_plan, h]
    · cases hnav : (strContains (pyLower task) "navigate"
        || strContains (pyLower task) "go to" || strContains (pyLower task) "visit")
      · simp [generate_action_plan, hnav]
      · simp [generate_action_plan, hnav, h]
  · rfl

/-- After `N` recording calls the buffer is exactly the entries of the last
`min N 10` calls, in order. -/
theorem recordHistory_eq (f : Nat → HistoryEntry) :
    ∀ N, recordHistory f N = (List.range' (N - min N 10 + 1) (min N 10)).map f := by
  intro N
  induction N with
  | zero => simp [recordHistory]
  | succ n ih =>
    show store_action_history (recordHistory f n) (f (n + 1)) = _
    rw [ih]
    unfold store_action_history
    by_cases hn : n < 10
    · have hcond : ¬ (10 <
          ((List.range' (n - min n 10 + 1) (min n 10)).map f ++ [f (n + 1)]).length) := by
        simp
        omega
      rw [if_neg hcond]
      have h1 : n - min n 10 + 1 = 1 := by omega
      have h2 : min n 10 = n := by omega
      have h3 : (n + 1) - min (n + 1) 10 + 1 = 1 := by omega
      have h4 : min (n + 1) 10 = n + 1 := by omega
      rw [h1, h2, h3, h4, List.range'_concat, List.map_append]
      simp [Nat.add_comm]
    · have hcond : 10 <
          ((List.range' (n - min n 10 + 1) (min n 10)).map f ++ [f (n + 1)]).length := by
        simp
        omega
      rw [if_pos hcond]
      have h2 : min n 10 = 10 := by omega
      have h4 : min (n + 1) 10 = 10 := by omega
      rw [h2, h4]
      have hcat : (List.range' (n - 10 + 1) 10).map f ++ [f (n + 1)] =
          (List.range' (n - 10 + 1) 11).map f := by
        have h11 : (11 : Nat) = 10 + 1 := rfl
        rw [h11]
        nth_rewrite 2 [List.range'_concat]
        rw [List.map_append]
        have harg : n - 10 + 1 + 1 * 10 = n + 1 := by omega
        rw [harg]
        rfl
      rw [hcat]
      have hlen11 : ((List.range' (n - 10 + 1) 11).map f).length = 11 := by simp
      rw [hlen11]
      have h11 : (11 : Nat) = 10 + 1 := rfl
      rw [h11, List.range'_succ, List.map_cons]
      have hdrop : (10 + 1) - 10 = 1 := rfl
      rw [hdrop, List.drop_one, List.tail_cons]
      have harg2 : n - 10 + 1 + 1 = (n + 1) - 10 + 1 := by omega
      rw [harg2]

/-- C3: after `N` history-recording calls the buffer has length `min N 10`
and holds exactly the entries of the most recent calls: the buffer equals
the entries of calls `N - min N 10 + 1` through `N` in order, and (for
pairwise-distinct entries) the entry of call `k` is present iff
`k > N - 10`. -/
theorem action_history_spec :
    ∀ (f : Nat → HistoryEntry) (N : Nat),
      (recordHistory f N).length = min N 10 ∧
      recordHistory f N = (List.range' (N - min N 10 + 1) (min N 10)).map f ∧
      (Function.Injective f → ∀ k, 1 ≤ k → k ≤ N →
        (f k ∈ recordHistory f N ↔ N - 10 < k)) := by
  intro f N
  have heq := recordHistory_eq f N
  refine ⟨?_, heq, ?_⟩
  · rw [heq]
    simp
  · intro hinj k _hk1 hkN
    rw [heq]
    constructor
    · intro hmem
      rcases List.mem_map.mp hmem with ⟨a, ha, hfa⟩
      have hak : a = k := hinj hfa
      subst hak
      have := List.mem_range'_1.mp ha
      omega
    · intro hlt
      refine List.mem_map.mpr ⟨k, ?_, rfl⟩
      exact List.mem_range'_1.mpr (by omega)

/-- The concrete history stream has pairwise-distinct entries. -/
theorem histEntryAt_injective : Function.Injective histEntryAt := by
  intro a b h
  have h2 := congrArg (fun e => e.timestamp.data.length) h
  simpa [histEntryAt] using h2

/-- C3 witness: after 12 calls, the entry of call 3 (3 > 12 − 10) is still
in the buffer. -/
theorem action_history_witness :
    Function.Injective histEntryAt ∧ 1 ≤ 3 ∧ 3 ≤ 12 ∧
    (histEntryAt 3 ∈ recordHistory histEntryAt 12 ↔ 12 - 10 < 3) :=
  ⟨histEntryAt_injective, by norm_num, by norm_num,
    (action_history_spec histEntryAt 12).2.2 histEntryAt_injective 3 (by norm_num)
      (by norm_num)⟩

/-- C8: `_analyze_page_state` classifies `page_type` by the fixed priority
order login > search > form > checkout > shopping > general (so a context
with both a password field and a search field is "login"), and classifies
`state` as "loading" when the page is not ready, else "empty" when there
are no interactive elements, else "ready". -/
theorem page_state_spec :
    ∀ context : PageContext,
      (context.page_info.has_login = true →
        (analyze_page_state context).type = "login") ∧
      (context.page_info.has_login = false → context.page_info.has_search = true →
        (analyze_page_state context).type = "search") ∧
      (context.page_info.has_login = false → context.page_info.has_search = false →
        (strContains (pyLower context.page_title) "form" = true ∨
            0 < context.page_info.forms) →
        (analyze_page_state context).type = "form") ∧
      (context.page_info.has_login = false → context.page_info.has_search = false →
        strContains (pyLower context.page_title) "form" = false →
        context.page_info.forms = 0 →
        context.interactive_elements.any
          (fun elem => strContains (pyLower elem.text) "checkout") = true →
        (analyze_page_state context).type = "checkout") ∧
      (context.page_info.has_login = false → context.page_info.has_search = false →
        strContains (pyLower context.page_title) "form" = false →
        context.page_info.forms = 0 →
        context.interactive_elements.any
          (fun elem => strContains (pyLower elem.text) "checkout") = false →
        context.interactive_elements.any
          (fun elem => strContains (pyLower elem.text) "cart") = true →
        (analyze_page_state context).type = "shopping") ∧
      (context.page_info.has_login = false → context.page_info.has_search = false →
        strContains (pyLower context.page_title) "form" = false →
        context.page_info.forms = 0 →
        context.interactive_elements.any
          (fun elem => strContains (pyLower elem.text) "checkout") = false →
        context.interactive_elements.any
          (fun elem => strContains (pyLower elem.text) "cart") = false →
        (analyze_page_state context).type = "general") ∧
      (context.page_info.page_ready = false →
        (analyze_page_state context).state = "loading") ∧
      (context.page_info.page_ready = true → context.interactive_elements = [] →
        (analyze_page_state context).state = "empty") ∧
      (context.page_info.page_ready = true → context.interactive_elements ≠ [] →
        (analyze_page_state context).state = "ready") := by
  intro context
  refine ⟨fun hl => ?_, fun hl hs => ?_, fun hl hs h3 => ?_,
    fun hl hs h3a h3b h4 => ?_, fun hl hs h3a h3b h4 h5 => ?_,
    fun hl hs h3a h3b h4 h5 => ?_, fun hr => ?_, fun hr he => ?_, fun hr he => ?_⟩
  · simp [analyze_page_state, hl]
  · simp [analyze_page_state, hl, hs]
  · rcases h3 with h | h
    · simp [analyze_page_state, hl, hs, h]
    · simp [analyze_page_state, hl, hs, h]
  · simp [analyze_page_state, hl, hs, h3a, h3b, h4]
  · simp [analyze_page_state, hl, hs, h3a, h3b, h4, h5]
  · simp [analyze_page_state, hl, hs, h3a, h3b, h4, h5]
  · simp [analyze_page_state, hr]
  · simp [analyze_page_state, hr, he]
  · simp [analyze_page_state, hr, List.length_eq_zero, he]

/-- C8 witness: a context with both a password field and a search field
classifies as "login", and (being element-free and ready) as "empty". -/
theorem page_state_witness :
    (analyze_page_state loginSearchContext).type = "login" ∧
    (analyze_page_state loginSearchContext).state = "empty" :=
  ⟨(page_state_spec loginSearchContext).1 rfl,
    (page_state_spec loginSearchContext).2.2.2.2.2.2.2.1 rfl rfl⟩

/-- C9: the relevance score equals the number of interactive elements whose
text shares a word with the task divided by `max 1 total`, lies in
`[0, 1]`, is `0` when no element shares a word with the task, and
`relevant_elements` holds at most 5 elements. -/
theorem contextual_relevance_spec :
    ∀ (task : String) (context : PageContext),
      (analyze_contextual_relevance task context).relevance_score =
        ((context.interactive_elements.filter
            (shares_word_with_task (pySplit (pyLower task)))).length : ℚ) /
          ((max 1 context.interactive_elements.length : Nat) : ℚ) ∧
      0 ≤ (analyze_contextual_relevance task context).relevance_score ∧
      (analyze_contextual_relevance task context).relevance_score ≤ 1 ∧
      ((∀ e ∈ context.interactive_elements,
          shares_word_with_task (pySplit (pyLower task)) e = false) →
        (analyze_contextual_relevance task context).relevance_score = 0) ∧
      (analyze_contextual_relevance task context).relevant_elements.length ≤ 5 := by
  intro task context
  have hscore : (analyze_contextual_relevance task context).relevance_score =
      min 1 (((context.interactive_elements.filter
          (shares_word_with_task (pySplit (pyLower task)))).length : ℚ) /
        ((max 1 context.interactive_elements.length : Nat) : ℚ)) := rfl
  have htake : (analyze_contextual_relevance task context).relevant_elements =
      (context.interactive_elements.filter
        (shares_word_with_task (pySplit (pyLower task)))).take 5 := rfl
  have hle : (context.interactive_elements.filter
      (shares_word_with_task (pySplit (pyLower task)))).length ≤
      context.interactive_elements.length :=
    List.length_filter_le _ _
  have hden_pos : (0 : ℚ) < ((max 1 context.interactive_elements.length : Nat) : ℚ) := by
    exact_mod_cast Nat.lt_of_lt_of_le Nat.zero_lt_one (le_max_left _ _)
  have hx_le_one : ((context.interactive_elements.filter
      (shares_word_with_task (pySplit (pyLower task)))).length : ℚ) /
      ((max 1 context.interactive_elements.length : Nat) : ℚ) ≤ 1 := by
    rw [div_le_one hden_pos]
    exact_mod_cast le_trans hle (le_max_right 1 _)
  have hx_nonneg : (0 : ℚ) ≤ ((context.interactive_elements.filter
      (shares_word_with_task (pySplit (pyLower task)))).length : ℚ) /
      ((max 1 context.interactive_elements.length : Nat) : ℚ) :=
    div_nonneg (Nat.cast_nonneg _) (le_of_lt hden_pos)
  refine ⟨?_, ?_, ?_, ?_, ?_⟩
  · rw [hscore, min_eq_right hx_le_one]
  · rw [hscore]
    exact le_min zero_le_one hx_nonneg
  · rw [hscore]
    exact min_le_left _ _
  · intro h
    have hfil : context.interactive_elements.filter
        (shares_word_with_task (pySplit (pyLower task))) = [] := by
      refine List.filter_eq_nil_iff.mpr fun a ha => ?_
      simp [h a ha]
    rw [hscore, hfil]
    simp
  · rw [htake]
    exact List.length_take_le _ _

/-- C9 witness: a task sharing no word with the single element's text gets
relevance score 0 (and at most 5 relevant elements). -/
theorem contextual_relevance_witness :
    (analyze_contextual_relevance "frobnicate the widget" irrelevantContext).relevance_score
        = 0 ∧
    (analyze_contextual_relevance "frobnicate the widget"
        irrelevantContext).relevant_elements.length ≤ 5 :=
  ⟨(contextual_relevance_spec "frobnicate the widget" irrelevantContext).2.2.2.1
      (by decide),
    (contextual_relevance_spec "frobnicate the widget" irrelevantContext).2.2.2.2⟩

/-- C10: plan-status introspection is total: with no plan or an empty plan
it reports `has_plan = false` (touching neither division nor indexing);
with a non-empty plan of length `L` and cursor `s` it reports
`total_steps = L`, `current_step = s + 1`, `remaining_steps = L - s - 1`,
and a step description taken from the plan exactly when `s < L` (else the
literal "Plan completed") — never an exception for any `(plan, cursor)`
state. -/
theorem plan_status_spec :
    ∀ (current_plan : Option (List BrowserAction)) (plan_step : Nat),
      (current_plan = none ∨ current_plan = some [] →
        get_current_plan_status current_plan plan_step = some { has_plan := false }) ∧
      (∀ plan, current_plan = some plan → plan ≠ [] →
        get_current_plan_status current_plan plan_step = some
          { has_plan := true,
            total_steps := some plan.length,
            current_step := some (plan_step + 1),
            progress_percentage := some ((plan_step + 1 : ℚ) / (plan.length : ℚ) * 100),
            current_step_description := some (if h : plan_step < plan.length then
              (plan.get ⟨plan_step, h⟩).description else "Plan completed"),
            remaining_steps := some ((plan.length : Int) - plan_step - 1) }) := by
  intro current_plan plan_step
  constructor
  · rintro (rfl | rfl) <;> simp [get_current_plan_status]
  · intro plan hcp hne
    subst hcp
    have hne' : plan.isEmpty = false := by
      cases plan with
      | nil => exact absurd rfl hne
      | cons a l => rfl
    by_cases h : plan_step < plan.length
    · simp [get_current_plan_status, hne', h, List.get?_eq_get h]
    · simp [get_current_plan_status, hne', h]

/-- C10 witness: a one-step plan with cursor 0 yields the full status
record. -/
theorem plan_status_witness :
    get_current_plan_status (some [stepA]) 0 = some
      { has_plan := true, total_steps := some 1, current_step := some 1,
        progress_percentage := some 100,
        current_step_description := some "Step A",
        remaining_steps := some 0 } := by
  have h := (plan_status_spec (some [stepA]) 0).2 [stepA] rfl (by decide)
  rw [h]
  norm_num [stepA]

/-- Inversion of a successful `Except` bind-then-pure. -/
theorem except_bind_pure_eq_ok {α β : Type} {e : Except String α} {g : α → β} {r : β}
    (h : (e >>= fun v => pure (g v)) = Except.ok r) :
    ∃ v, e = Except.ok v ∧ g v = r := by
  cases e with
  | ok v =>
    refine ⟨v, rfl, ?_⟩
    simpa [Bind.bind, Except.bind, pure, Except.pure, Except.ok.injEq] using h
  | error e' => simp [Bind.bind, Except.bind] at h

/-- C2 (amended): the executor is total — it never lets an exception reach
its caller.  A successful result always carries the kind-specific data
shape; an exception from the underlying capability is converted to
`success = false` with the error equal to the exception's message verbatim
(so it is empty exactly when the message is empty); an unknown kind yields
`success = false` with the non-empty error "Unknown action type: ...". -/
theorem executor_spec :
    ∀ (B : Browser) (a : BrowserAction),
      ((execute_action B a).success = true →
        dataMatchesKind a.action (execute_action B a).data = true) ∧
      (∀ e, execute_action_body B a = Except.error e →
        execute_action B a = { success := false, error := some e }) ∧
      (∀ s, a.action = ActionType.other s →
        (execute_action B a).success = false ∧
        (execute_action B a).error = some ("Unknown action type: " ++ s) ∧
        "Unknown action type: " ++ s ≠ "") := by
  intro B a
  refine ⟨?_, ?_, ?_⟩
  · obtain ⟨act, params, descr⟩ := a
    intro hsucc
    rcases hbody : execute_action_body B ⟨act, params, descr⟩ with e | r
    · have hfail : execute_action B ⟨act, params, descr⟩ =
          { success := false, error := some e } := by
        unfold execute_action
        rw [hbody]
      rw [hfail] at hsucc
      cases hsucc
    · have hea : execute_action B ⟨act, params, descr⟩ = r := by
        unfold execute_action
        rw [hbody]
      rw [hea] at hsucc ⊢
      cases act <;> simp only [execute_action_body] at hbody
      all_goals try (rcases except_bind_pure_eq_ok hbody with ⟨v, hv, hr⟩; subst hr; simp [dataMatchesKind])
      all_goals simp at hbody
  · intro e he
    unfold execute_action
    rw [he]
  · intro s hs
    have hb : execute_action_body B a = Except.error ("Unknown action type: " ++ s) := by
      unfold execute_action_body
      rw [hs]
    have hea : execute_action B a =
        { success := false, error := some ("Unknown action type: " ++ s) } := by
      unfold execute_action
      rw [hb]
    refine ⟨by rw [hea], by rw [hea], ?_⟩
    intro hcontra
    have hdata := congrArg String.data hcontra
    rw [String.data_append] at hdata
    simp at hdata

/-- C2 counterexample: an exception whose message is empty (Python's bare
`raise Exception()`) is converted to `success = false` with
`error = some ""` — an empty error string, refuting the claim's
"non-empty error string". -/
theorem executor_counterexample :
    (execute_action emptyMsgBrowser navigateExampleAction).success = false ∧
    (execute_action emptyMsgBrowser navigateExampleAction).error = some "" ∧
    ∀ msg, (execute_action emptyMsgBrowser navigateExampleAction).error = some msg →
      msg = "" := by
  refine ⟨rfl, rfl, ?_⟩
  intro msg h
  exact (Option.some.inj (h : (some "" : Option String) = some msg)).symm

/-- C2 witness: the theorem applied at a concrete unknown-kind action on a
concrete browser. -/
theorem executor_witness :
    (execute_action allOkBrowser unknownKindAction).success = false ∧
    (execute_action allOkBrowser unknownKindAction).error =
      some ("Unknown action type: " ++ "hover") :=
  ⟨((executor_spec allOkBrowser unknownKindAction).2.2 "hover" rfl).1,
    ((executor_spec allOkBrowser unknownKindAction).2.2 "hover" rfl).2.1⟩

/-- C1 (amended): whatever the browser does, `recoverFromError` runs its
recovery actions (2-second wait, then — only if the wait failed — a forced
reload) but always returns a failed result whose error embeds the original
error text followed by ". Recovery attempted."; the successful recovery
action's own result is never returned, and the recovery attempt's outcome
is embedded only on the (here unreachable) path where the recovery body
itself raises. -/
theorem recover_from_error_spec :
    ∀ (B : Browser) (now : Nat) (task error : String),
      (recover_from_error B now task error).success = false ∧
      (recover_from_error B now task error).error =
        some ("Original error: " ++ error ++ ". Recovery attempted.") :=
  fun _ _ _ _ => ⟨rfl, rfl⟩

/-- C1 counterexample: with every browser call succeeding and an error text
matching no element pattern, the first generic recovery action (the wait)
itself reports success, yet `recoverFromError` returns failure — and its
error embeds only the original error text, not the recovery attempt's
outcome. -/
theorem recover_from_error_counterexample :
    (execute_action allOkBrowser
      { action := ActionType.wait, parameters := { seconds := some 2 },
        description := "Wait for page to stabilize" }).success = true ∧
    (recover_from_error allOkBrowser 0 "click the button" "boom").success = false ∧
    (recover_from_error allOkBrowser 0 "click the button" "boom").error =
      some "Original error: boom. Recovery attempted." := by
  refine ⟨rfl, rfl, ?_⟩
  decide

@[simp] theorem constEnv_execStep (f : BrowserAction → ActionResult) (input : String)
    (nt : String → ActionResult) (s : Unit) (step : BrowserAction) :
    (constEnv f input nt).execStep s step = (f step, ()) := rfl

@[simp] theorem constEnv_takeShot (f : BrowserAction → ActionResult) (input : String)
    (nt : String → ActionResult) (s : Unit) (name : String) :
    (constEnv f input nt).takeShot s name = (true, ()) := rfl

@[simp] theorem constEnv_readInput (f : BrowserAction → ActionResult) (input : String)
    (nt : String → ActionResult) (s : Unit) :
    (constEnv f input nt).readInput s = (Except.ok input, ()) := rfl

@[simp] theorem constEnv_runNewTask (f : BrowserAction → ActionResult) (input : String)
    (nt : String → ActionResult) (s : Unit) (t : String) :
    (constEnv f input nt).runNewTask s t = (nt t, ()) := rfl

@[simp] theorem countEnv_execStep (f : BrowserAction → ActionResult) (input : String)
    (nt : String → ActionResult) (n : Nat) (step : BrowserAction) :
    (countEnv f input nt).execStep n step = (f step, n + 1) := rfl

@[simp] theorem countEnv_takeShot (f : BrowserAction → ActionResult) (input : String)
    (nt : String → ActionResult) (n : Nat) (name : String) :
    (countEnv f input nt).takeShot n name = (true, n) := rfl

@[simp] theorem countEnv_readInput (f : BrowserAction → ActionResult) (input : String)
    (nt : String → ActionResult) (n : Nat) :
    (countEnv f input nt).readInput n = (Except.ok input, n) := rfl

@[simp] theorem countEnv_runNewTask (f : BrowserAction → ActionResult) (input : String)
    (nt : String → ActionResult) (n : Nat) (t : String) :
    (countEnv f input nt).runNewTask n t = (nt t, n) := rfl

@[simp] theorem traceEnv_execStep (f : BrowserAction → ActionResult) (input : String)
    (nt : String → ActionResult) (tr : List BrowserAction) (step : BrowserAction) :
    (traceEnv f input nt).execStep tr step = (f step, tr ++ [step]) := rfl

@[simp] theorem traceEnv_takeShot (f : BrowserAction → ActionResult) (input : String)
    (nt : String → ActionResult) (tr : List BrowserAction) (name : String) :
    (traceEnv f input nt).takeShot tr name = (true, tr) := rfl

@[simp] theorem traceEnv_readInput (f : BrowserAction → ActionResult) (input : String)
    (nt : String → ActionResult) (tr : List BrowserAction) :
    (traceEnv f input nt).readInput tr = (Except.ok input, tr) := rfl

@[simp] theorem traceEnv_runNewTask (f : BrowserAction → ActionResult) (input : String)
    (nt : String → ActionResult) (tr : List BrowserAction) (t : String) :
    (traceEnv f input nt).runNewTask tr t = (nt t, tr) := rfl

/-- With a console that always answers "skip", every failing step is
skipped, so the loop always completes with `completed_steps = total`. -/
theorem run_plan_steps_skip (f : BrowserAction → ActionResult)
    (nt : String → ActionResult) :
    ∀ (steps : List BrowserAction) (total idx : Nat),
      run_plan_steps (constEnv f "skip" nt) total steps idx () =
        ({ success := true, data := some (ActionData.completedSteps total) }, ()) := by
  intro steps
  induction steps with
  | nil => intro total idx; rfl
  | cons step rest ih =>
    intro total idx
    have hskip : pyLower (pyStrip "skip") = "skip" := by decide
    cases hfs : (f step).success <;>
      simp [run_plan_steps, recover_from_step_failure, ask_user_for_help,
        hskip, hfs, ih]

/-- With a console that always answers "abort", the loop fails at the first
failing step, naming its 1-based index and original error. -/
theorem run_plan_steps_abort (f : BrowserAction → ActionResult)
    (nt : String → ActionResult) :
    ∀ (steps : List BrowserAction) (i : Nat) (hi : i < steps.length) (total idx : Nat),
      (f (steps.get ⟨i, hi⟩)).success = false →
      (∀ j (hj : j < i), (f (steps.get ⟨j, Nat.lt_trans hj hi⟩)).success = true) →
      run_plan_steps (constEnv f "abort" nt) total steps idx () =
        ({ success := false,
           error := some ("Plan failed at step " ++ toString (idx + i + 1) ++ ": "
             ++ pyStr (f (steps.get ⟨i, hi⟩)).error) }, ()) := by
  intro steps
  induction steps with
  | nil => intro i hi; exact absurd hi (by simp)
  | cons step rest ih =>
    intro i hi total idx hfail hbefore
    have habort : pyLower (pyStrip "abort") = "abort" := by decide
    cases i with
    | zero =>
      have hfs : (f step).success = false := hfail
      simp [run_plan_steps, recover_from_step_failure, ask_user_for_help, habort, hfs]
    | succ j =>
      have hstep : (f step).success = true := by
        have := hbefore 0 (Nat.succ_pos j)
        simpa using this
      have hj' : j < rest.length := Nat.lt_of_succ_lt_succ hi
      have hfail' : (f (rest.get ⟨j, hj'⟩)).success = false := by
        simpa using hfail
      have hbefore' : ∀ k (hk : k < j),
          (f (rest.get ⟨k, Nat.lt_trans hk hj'⟩)).success = true := by
        intro k hk
        have := hbefore (k + 1) (Nat.succ_lt_succ hk)
        simpa using this
      have harith : idx + 1 + j + 1 = idx + (j + 1) + 1 := by omega
      have := ih j hj' total (idx + 1) hfail' hbefore'
      simp [run_plan_steps, hstep, this, harith, List.get_cons_succ]

/-- Instrumented variant: counting `execStep` calls shows the failing step
is executed exactly twice — the original attempt plus one automatic retry —
before the (aborting) user prompt ends the loop with the counter at
`n + i + 2`. -/
theorem run_plan_steps_count (f : BrowserAction → ActionResult)
    (nt : String → ActionResult) :
    ∀ (steps : List BrowserAction) (i : Nat) (hi : i < steps.length)
      (total idx n : Nat),
      (f (steps.get ⟨i, hi⟩)).success = false →
      (∀ j (hj : j < i), (f (steps.get ⟨j, Nat.lt_trans hj hi⟩)).success = true) →
      run_plan_steps (countEnv f "abort" nt) total steps idx n =
        ({ success := false,
           error := some ("Plan failed at step " ++ toString (idx + i + 1) ++ ": "
             ++ pyStr (f (steps.get ⟨i, hi⟩)).error) }, n + i + 2) := by
  intro steps
  induction steps with
  | nil => intro i hi; exact absurd hi (by simp)
  | cons step rest ih =>
    intro i hi total idx n hfail hbefore
    have habort : pyLower (pyStrip "abort") = "abort" := by decide
    cases i with
    | zero =>
      have hfs : (f step).success = false := hfail
      simp [run_plan_steps, recover_from_step_failure, ask_user_for_help, habort, hfs]
    | succ j =>
      have hstep : (f step).success = true := by
        have := hbefore 0 (Nat.succ_pos j)
        simpa using this
      have hj' : j < rest.length := Nat.lt_of_succ_lt_succ hi
      have hfail' : (f (rest.get ⟨j, hj'⟩)).success = false := by
        simpa using hfail
      have hbefore' : ∀ k (hk : k < j),
          (f (rest.get ⟨k, Nat.lt_trans hk hj'⟩)).success = true := by
        intro k hk
        have := hbefore (k + 1) (Nat.succ_lt_succ hk)
        simpa using this
      have harith : idx + 1 + j + 1 = idx + (j + 1) + 1 := by omega
      have harith2 : n + 1 + j + 2 = n + (j + 1) + 2 := by omega
      have := ih j hj' total (idx + 1) (n + 1) hfail' hbefore'
      simp [run_plan_steps, hstep, this, harith, harith2, List.get_cons_succ]

/-- Tracing variant for a free-text console reply: the reply (stripped and
lowercased) is run as a brand-new task; if that new task fails the loop
stops — the trace shows no step after the failing one was executed — and
if it succeeds the loop continues with exactly the remaining steps. -/
theorem run_plan_steps_trace (f : BrowserAction → ActionResult)
    (nt : String → ActionResult) (raw : String)
    (hns : pyLower (pyStrip raw) ≠ "skip")
    (hnr : pyLower (pyStrip raw) ≠ "retry")
    (hna : pyLower (pyStrip raw) ≠ "abort") :
    ∀ (steps : List BrowserAction) (i : Nat) (hi : i < steps.length)
      (total idx : Nat) (tr : List BrowserAction),
      (f (steps.get ⟨i, hi⟩)).success = false →
      (∀ j (hj : j < i), (f (steps.get ⟨j, Nat.lt_trans hj hi⟩)).success = true) →
      ((nt (pyLower (pyStrip raw))).success = false →
        run_plan_steps (traceEnv f raw nt) total steps idx tr =
          ({ success := false,
             error := some ("Plan failed at step " ++ toString (idx + i + 1) ++ ": "
               ++ pyStr (f (steps.get ⟨i, hi⟩)).error) },
           tr ++ steps.take i ++ [steps.get ⟨i, hi⟩, steps.get ⟨i, hi⟩])) ∧
      ((nt (pyLower (pyStrip raw))).success = true →
        run_plan_steps (traceEnv f raw nt) total steps idx tr =
          run_plan_steps (traceEnv f raw nt) total (steps.drop (i + 1)) (idx + i + 1)
            (tr ++ steps.take i ++ [steps.get ⟨i, hi⟩, steps.get ⟨i, hi⟩])) := by
  intro steps
  induction steps with
  | nil => intro i hi; exact absurd hi (by simp)
  | cons step rest ih =>
    intro i hi total idx tr hfail hbefore
    cases i with
    | zero =>
      have hfs : (f step).success = false := hfail
      constructor
      · intro hnt
        simp [run_plan_steps, recover_from_step_failure, ask_user_for_help,
          hfs, if_neg hns, if_neg hnr, if_neg hna, hnt]
      · intro hnt
        simp [run_plan_steps, recover_from_step_failure, ask_user_for_help,
          hfs, if_neg hns, if_neg hnr, if_neg hna, hnt]
    | succ j =>
      have hstep : (f step).success = true := by
        have := hbefore 0 (Nat.succ_pos j)
        simpa using this
      have hj' : j < rest.length := Nat.lt_of_succ_lt_succ hi
      have hfail' : (f (rest.get ⟨j, hj'⟩)).success = false := by
        simpa using hfail
      have hbefore' : ∀ k (hk : k < j),
          (f (rest.get ⟨k, Nat.lt_trans hk hj'⟩)).success = true := by
        intro k hk
        have := hbefore (k + 1) (Nat.succ_lt_succ hk)
        simpa using this
      have harith : idx + 1 + j + 1 = idx + (j + 1) + 1 := by omega
      have hih := ih j hj' total (idx + 1) (tr ++ [step]) hfail' hbefore'
      constructor
      · intro hnt
        have h1 := hih.1 hnt
        simp [run_plan_steps, hstep, h1, harith, List.append_assoc, List.get_cons_succ]
      · intro hnt
        have h2 := hih.2 hnt
        simp [run_plan_steps, hstep, h2, harith, List.append_assoc, List.get_cons_succ]

/-- C5: a plan step whose action always fails is retried exactly once
(`recoverFromStepFailure`) before `askUserForHelp` is consulted; a "skip"
reply lets the plan continue and the task succeed with
`completed_steps = len(plan)`, while an "abort" reply fails the task with
an error naming that step's 1-based index.  The instrumented run shows the
failing step executed exactly twice (original + one retry) when the prompt
is reached. -/
theorem step_failure_escalation_spec :
    ∀ (f : BrowserAction → ActionResult) (nt : String → ActionResult)
      (plan : List BrowserAction) (i : Nat) (hi : i < plan.length),
      (f (plan.get ⟨i, hi⟩)).success = false →
      (∀ j (hj : j < i), (f (plan.get ⟨j, Nat.lt_trans hj hi⟩)).success = true) →
      (execute_complex_plan (constEnv f "skip" nt) plan ()).1 =
        { success := true, data := some (ActionData.completedSteps plan.length) } ∧
      (execute_complex_plan (constEnv f "abort" nt) plan ()).1 =
        { success := false,
          error := some ("Plan failed at step " ++ toString (i + 1) ++ ": "
            ++ pyStr (f (plan.get ⟨i, hi⟩)).error) } ∧
      execute_complex_plan (countEnv f "abort" nt) plan 0 =
        ({ success := false,
           error := some ("Plan failed at step " ++ toString (i + 1) ++ ": "
             ++ pyStr (f (plan.get ⟨i, hi⟩)).error) }, i + 2) := by
  intro f nt plan i hi hfail hbefore
  refine ⟨?_, ?_, ?_⟩
  · rw [execute_complex_plan, run_plan_steps_skip]
  · rw [execute_complex_plan, run_plan_steps_abort f nt plan i hi plan.length 0 hfail hbefore]
    simp
  · rw [execute_complex_plan, run_plan_steps_count f nt plan i hi plan.length 0 0 hfail hbefore]
    simp

/-- C5 witness: the theorem applied to the one-step plan `[stepA]` whose
action always fails. -/
theorem step_failure_escalation_witness :
    (failOnA stepA).success = false ∧
    (execute_complex_plan (constEnv failOnA "skip" (fun _ => { success := false }))
        [stepA] ()).1 =
      { success := true, data := some (ActionData.completedSteps 1) } ∧
    execute_complex_plan (countEnv failOnA "abort" (fun _ => { success := false }))
        [stepA] 0 =
      ({ success := false,
         error := some ("Plan failed at step " ++ toString (0 + 1) ++ ": "
           ++ pyStr (failOnA stepA).error) }, 0 + 2) := by
  have h := step_failure_escalation_spec failOnA (fun _ => { success := false })
    [stepA] 0 (by decide) (by decide) (fun j hj => absurd hj (Nat.not_lt_zero j))
  exact ⟨by decide, h.1, h.2.2⟩

/-- C4 (amended): when a failed step escalates and the user answers with
free text, the text (stripped, lowercased) is executed as a brand-new
top-level task; if that new task fails, no further steps of the original
plan are executed and the whole task fails referencing the step's index,
but if the new task succeeds, execution continues with the remaining steps
of the original plan. -/
theorem free_text_recovery_spec :
    ∀ (f : BrowserAction → ActionResult) (nt : String → ActionResult) (raw : String)
      (plan : List BrowserAction) (i : Nat) (hi : i < plan.length),
      pyLower (pyStrip raw) ≠ "skip" →
      pyLower (pyStrip raw) ≠ "retry" →
      pyLower (pyStrip raw) ≠ "abort" →
      (f (plan.get ⟨i, hi⟩)).success = false →
      (∀ j (hj : j < i), (f (plan.get ⟨j, Nat.lt_trans hj hi⟩)).success = true) →
      ((nt (pyLower (pyStrip raw))).success = false →
        execute_complex_plan (traceEnv f raw nt) plan [] =
          ({ success := false,
             error := some ("Plan failed at step " ++ toString (i + 1) ++ ": "
               ++ pyStr (f (plan.get ⟨i, hi⟩)).error) },
           plan.take i ++ [plan.get ⟨i, hi⟩, plan.get ⟨i, hi⟩])) ∧
      ((nt (pyLower (pyStrip raw))).success = true →
        execute_complex_plan (traceEnv f raw nt) plan [] =
          run_plan_steps (traceEnv f raw nt) plan.length (plan.drop (i + 1)) (i + 1)
            (plan.take i ++ [plan.get ⟨i, hi⟩, plan.get ⟨i, hi⟩])) := by
  intro f nt raw plan i hi hns hnr hna hfail hbefore
  have h := run_plan_steps_trace f nt raw hns hnr hna plan i hi plan.length 0 []
    hfail hbefore
  constructor
  · intro hnt
    have h1 := h.1 hnt
    simpa [execute_complex_plan] using h1
  · intro hnt
    have h2 := h.2 hnt
    simpa [execute_complex_plan] using h2

/-- C4 counterexample: plan `[stepA, stepB]`, `stepA` always failing, free
text whose replacement task succeeds.  The final trace `[A, A, B]` shows
`stepB` — a further step of the original plan — executed after the
free-text recovery, and the task succeeds with `completed_steps = 2`,
refuting "the remainder of the plan is abandoned regardless of whether the
new task succeeds". -/
theorem free_text_counterexample :
    execute_complex_plan (traceEnv failOnA "take a screenshot instead"
        (fun _ => { success := true })) [stepA, stepB] [] =
      ({ success := true, data := some (ActionData.completedSteps 2) },
        [stepA, stepA, stepB]) := by
  decide

/-- C4 witness: the amended theorem applied to the two-step plan with a
succeeding free-text replacement task: execution continues with the
remaining step. -/
theorem free_text_recovery_witness :
    (failOnA stepA).success = false ∧
    ((fun _ : String => ({ success := true } : ActionResult))
        (pyLower (pyStrip "take a screenshot instead"))).success = true ∧
    execute_complex_plan (traceEnv failOnA "take a screenshot instead"
        (fun _ => { success := true })) [stepA, stepB] [] =
      run_plan_steps (traceEnv failOnA "take a screenshot instead"
          (fun _ => { success := true })) 2 ([stepA, stepB].drop (0 + 1)) (0 + 1)
        ([stepA, stepB].take 0 ++ [stepA, stepA]) := by
  have h := free_text_recovery_spec failOnA (fun _ => { success := true })
    "take a screenshot instead" [stepA, stepB] 0 (by decide) (by decide) (by decide)
    (by decide) (by decide) (fun j hj => absurd hj (Nat.not_lt_zero j))
  exact ⟨by decide, by decide, h.2 rfl⟩

/-- C7 witness: the theorem applied at the concrete task
`"navigate to https://example.com"` with a failed model call. -/
theorem planner_fallback_witness :
    (strContains (pyLower "navigate to https://example.com") "navigate"
      || strContains (pyLower "navigate to https://example.com") "go to"
      || strContains (pyLower "navigate to https://example.com") "visit") = true ∧
    extract_url "navigate to https://example.com" = some "https://example.com" ∧
    generate_action_plan (Except.error "model call timed out")
        "navigate to https://example.com" =
      { action := ActionType.navigate,
        parameters := { url := some "https://example.com" },
        description := "Navigating to https://example.com" } :=
  ⟨by decide, by decide,
    (planner_fallback_spec "model call timed out" "navigate to https://example.com").1
      "https://example.com" (by decide) (by decide)⟩

end Agent
